import Mathlib

/-!
Verification of the arraybridge conversion engine
(`src/arraybridge/conversion_helpers.py`).

The embedding models the generated `to_<target>` converter methods, the
`_CONVERTERS` registry, and `_validate_converters`, all translated from the
source.  Parts of the repository that the claims depend on but whose code is
not in the sources (the `MemoryType` enumeration, `_supports_dlpack`, the
registry factory `get_converter`, and the `convert_memory` dispatcher) are
modelled from the specification and marked as such in their doc comments.

Python exceptions are modelled by `PyError`; a raising computation returns
`Except PyError V`.  The `except Exception` clause of the generated method
catches exactly the errors whose `isExceptionClass` flag is true (Python's
`KeyboardInterrupt`/`SystemExit` derive from `BaseException` only and are not
caught by `except Exception`).
-/

namespace ArrayBridge

/-- Modelled from the spec: the closed framework enumeration `MemoryType`
(from `arraybridge.types`, not in the sources).  The spec describes it as a
fixed, closed set of framework identifiers; the package top-level names
numpy, cupy, torch, tensorflow, jax and pyclesperanto. -/
inductive MemoryType where
  | numpy
  | cupy
  | torch
  | tensorflow
  | jax
  | pyclesperanto
  deriving DecidableEq, Repr, Fintype

/-- The `.value` string of each enumeration member. -/
def MemoryType.value : MemoryType → String
  | .numpy => "numpy"
  | .cupy => "cupy"
  | .torch => "torch"
  | .tensorflow => "tensorflow"
  | .jax => "jax"
  | .pyclesperanto => "pyclesperanto"

/-- Iteration order of `for target_type in MemoryType`. -/
def MemoryType.all : List MemoryType :=
  [.numpy, .cupy, .torch, .tensorflow, .jax, .pyclesperanto]

/-- A Python exception value.  `exc name isExc` is an exception of class
`name`; `isExc` records whether the class derives from `Exception` (as
opposed to deriving only from `BaseException`, like `KeyboardInterrupt`).
`memoryConversionError cause` is a `MemoryConversionError` wrapping its
underlying cause. -/
inductive PyError where
  | exc (name : String) (isExc : Bool)
  | memoryConversionError (cause : PyError)
  deriving DecidableEq, Repr

/-- Whether `except Exception` catches this error. -/
def PyError.isExceptionClass : PyError → Bool
  | .exc _ isE => isE
  | .memoryConversionError _ => true

/-- The class name of the error. -/
def PyError.className : PyError → String
  | .exc name _ => name
  | .memoryConversionError _ => "MemoryConversionError"

/-- The `KeyError` raised by a failed dict lookup. -/
def keyError : PyError := .exc "KeyError" true

/-- A concrete `MemoryTypeConverter` instance: the four primitive operations
of the abstract base class, each taking the data value and `gpu_id` and
either returning a value or raising. -/
structure Converter (V : Type) where
  to_numpy : V → Int → Except PyError V
  from_numpy : V → Int → Except PyError V
  from_dlpack : V → Int → Except PyError V
  move_to_device : V → Int → Except PyError V

/-- The ambient module state the generated methods close over:
`get_converter` is the registry factory (Modelled from the spec: from
`arraybridge.converters_registry`, not in the sources; one converter per
framework identifier), and `supports_dlpack` is the capability probe
`_supports_dlpack` (Modelled from the spec: from `arraybridge.utils`, not in
the sources; pure, never fails, returns a bool). -/
structure Env (V : Type) where
  get_converter : MemoryType → Converter V
  supports_dlpack : V → Bool

variable {V : Type}

/-- The `_CONVERTERS` dict, populated from the registry by the comprehension
over every member of `MemoryType`. -/
def CONVERTERS (env : Env V) : List (MemoryType × Converter V) :=
  MemoryType.all.map (fun mem_type => (mem_type, env.get_converter mem_type))

/-- A dict subscript `_CONVERTERS[tgt]`: raises `KeyError` when absent. -/
def lookupConverter (env : Env V) (tgt : MemoryType) : Except PyError (Converter V) :=
  match (CONVERTERS env).lookup tgt with
  | some c => .ok c
  | none => .error keyError

/-- The primitive operations a generated method can invoke, recorded in its
execution trace. -/
inductive PrimCall where
  | fromDlpack
  | moveToDevice
  | toNumpy
  | fromNumpy
  deriving DecidableEq, Repr

/-- Outcome of running a generated `to_<target>` method: its result, the
primitive calls it made in order, and whether the DLPack-failure warning was
logged. -/
structure RunOut (V : Type) where
  result : Except PyError V
  calls : List PrimCall
  warned : Bool

/-- Tier 1 of the generated method: the body of the `try` block —
`target_converter = _CONVERTERS[tgt]`, then `from_dlpack`, then
`move_to_device` — together with the primitive calls performed. -/
def tier1Run (env : Env V) (tgt : MemoryType) (data : V) (gpu_id : Int) :
    Except PyError V × List PrimCall :=
  match lookupConverter env tgt with
  | .error e => (.error e, [])
  | .ok target_converter =>
    match target_converter.from_dlpack data gpu_id with
    | .error e => (.error e, [.fromDlpack])
    | .ok result =>
      match target_converter.move_to_device result gpu_id with
      | .error e => (.error e, [.fromDlpack, .moveToDevice])
      | .ok v => (.ok v, [.fromDlpack, .moveToDevice])

/-- Tier 2 of the generated method: the CPU roundtrip
`numpy_data = self.to_numpy(data, gpu_id)` followed by
`_CONVERTERS[tgt].from_numpy(numpy_data, gpu_id)`, with its calls. -/
def tier2Run (env : Env V) (self : Converter V) (tgt : MemoryType) (data : V)
    (gpu_id : Int) : Except PyError V × List PrimCall :=
  match self.to_numpy data gpu_id with
  | .error e => (.error e, [.toNumpy])
  | .ok numpy_data =>
    match lookupConverter env tgt with
    | .error e => (.error e, [.toNumpy])
    | .ok target_converter =>
      match target_converter.from_numpy numpy_data gpu_id with
      | .error e => (.error e, [.toNumpy, .fromNumpy])
      | .ok v => (.ok v, [.toNumpy, .fromNumpy])

/-- Tier 2 as a full run outcome (no warning is logged on this path alone). -/
def tier2RunOut (env : Env V) (self : Converter V) (tgt : MemoryType) (data : V)
    (gpu_id : Int) : RunOut V :=
  ⟨(tier2Run env self tgt data gpu_id).1, (tier2Run env self tgt data gpu_id).2, false⟩

/-- The generated `to_<target>` method produced by `make_method(tgt)`:
if `_supports_dlpack(data)`, try Tier 1; `except Exception` catches the
failure, logs a warning, and falls through to the Tier 2 CPU roundtrip;
otherwise run Tier 2 directly.  Errors not caught by `except Exception`
propagate. -/
def methodRun (env : Env V) (self : Converter V) (tgt : MemoryType) (data : V)
    (gpu_id : Int) : RunOut V :=
  if env.supports_dlpack data then
    match tier1Run env tgt data gpu_id with
    | (.ok v, calls) => ⟨.ok v, calls, false⟩
    | (.error e, calls) =>
      if e.isExceptionClass then
        ⟨(tier2Run env self tgt data gpu_id).1,
          calls ++ (tier2Run env self tgt data gpu_id).2, true⟩
      else ⟨.error e, calls, false⟩
  else tier2RunOut env self tgt data gpu_id

/-- The value-level behaviour of the generated `to_<target>` method. -/
def method (env : Env V) (self : Converter V) (tgt : MemoryType) (data : V)
    (gpu_id : Int) : Except PyError V :=
  (methodRun env self tgt data gpu_id).result

/-! ### Attribute model and startup validation

Converter objects are modelled, for attribute lookup, by the list of their
attribute names: a lookup on an instance searches the instance and its class.
`_add_converter_methods` attaches one generated method per member of
`MemoryType` to the `MemoryTypeConverter` base class. -/

/-- Python `hasattr` over an object modelled as its attribute-name list. -/
def hasattr (attrs : List String) (name : String) : Bool :=
  decide (name ∈ attrs)

/-- The attribute names visible on a converter instance: its own class's
attributes followed by the (post-generation) base-class attributes. -/
def instanceAttrs (own classAttrs : List String) : List String :=
  own ++ classAttrs

/-- The loop body of `_add_converter_methods`: for each `target_type` in
`MemoryType`, `setattr(MemoryTypeConverter, "to_" + target_type.value, ...)`. -/
def add_converter_methods (classAttrs : List String) : List String :=
  MemoryType.all.foldl (fun attrs target_type => attrs ++ ["to_" ++ target_type.value]) classAttrs

/-- The generated method names, one per registered framework. -/
def generated_method_names : List String :=
  MemoryType.all.map (fun target_type => "to_" ++ target_type.value)

/-- The `required_methods` list of `_validate_converters`. -/
def required_methods : List String :=
  ["to_numpy", "from_numpy", "from_dlpack", "move_to_device"]

/-- One `hasattr` check loop of `_validate_converters`: raises `RuntimeError`
at the first missing method name. -/
def check_methods (mem_type : MemoryType) (conv : List String) :
    List String → Except PyError Unit
  | [] => .ok ()
  | m :: rest =>
    if hasattr conv m then check_methods mem_type conv rest
    else .error (.exc "RuntimeError" true)

/-- The per-converter body of `_validate_converters`: check the four ABC
methods, then the `to_X` method for every member of `MemoryType`. -/
def validate_one (mem_type : MemoryType) (conv : List String) : Except PyError Unit :=
  match check_methods mem_type conv required_methods with
  | .error e => .error e
  | .ok _ => check_methods mem_type conv generated_method_names

/-- The outer loop of `_validate_converters` over `_CONVERTERS.items()`. -/
def validate_loop (tables : MemoryType → List String) :
    List MemoryType → Except PyError Unit
  | [] => .ok ()
  | mem_type :: rest =>
    match validate_one mem_type (tables mem_type) with
    | .error e => .error e
    | .ok _ => validate_loop tables rest

/-- The module-initialization validation `_validate_converters`, over the
attribute tables of the registered converters. -/
def validate_converters (tables : MemoryType → List String) : Except PyError Unit :=
  validate_loop tables MemoryType.all

/-! ### The dispatcher -/

/-- Modelled from the spec: the Conversion Dispatcher `convert_memory` (from
`arraybridge.converters`, not in the sources).  Per the spec: detect the
source framework (surfacing the detection failure); if source == target,
return `move_to_device` with the default device hint; otherwise run the
source converter's generated `to_<target>` method, propagating its failures
wrapped as `MemoryConversionError` with the underlying cause attached.  The
returned trace records the primitive calls performed. -/
def convertRun (env : Env V) (detect : V → Except PyError MemoryType) (value : V)
    (target : MemoryType) (device_hint : Int) : Except PyError V × List PrimCall :=
  match detect value with
  | .error e => (.error e, [])
  | .ok source =>
    if source = target then
      match lookupConverter env source with
      | .error e => (.error e, [])
      | .ok source_converter =>
        (source_converter.move_to_device value device_hint, [.moveToDevice])
    else
      match lookupConverter env source with
      | .error e => (.error e, [])
      | .ok source_converter =>
        match methodRun env source_converter target value device_hint with
        | ⟨.ok v, calls, _⟩ => (.ok v, calls)
        | ⟨.error e, calls, _⟩ => (.error (.memoryConversionError e), calls)

/-- Modelled from the spec: the value-level behaviour of `convert_memory`. -/
def convert (env : Env V) (detect : V → Except PyError MemoryType) (value : V)
    (target : MemoryType) (device_hint : Int) : Except PyError V :=
  (convertRun env detect value target device_hint).1

/-! ### Concrete fixtures

Small executable converters over `V := Nat`, used to evaluate the theorems
at concrete inputs. -/

/-- The Tier 1 `ZeroCopyUnsupportedError` (an `Exception` subclass). -/
def zeroCopyErr : PyError := .exc "ZeroCopyUnsupportedError" true

/-- A `KeyboardInterrupt`: derives from `BaseException` only. -/
def keyboardInterrupt : PyError := .exc "KeyboardInterrupt" false

/-- A `ValueError` used as a Tier 2 failure cause. -/
def valueErr : PyError := .exc "ValueError" true

/-- A converter whose four primitives all succeed. -/
def okConverter : Converter Nat where
  to_numpy := fun d _ => Except.ok (d + 100)
  from_numpy := fun d _ => Except.ok (d + 200)
  from_dlpack := fun d _ => Except.ok (d + 10)
  move_to_device := fun d _ => Except.ok d

/-- A converter whose zero-copy import raises `ZeroCopyUnsupportedError`. -/
def dlFailConverter : Converter Nat where
  to_numpy := fun d _ => Except.ok (d + 100)
  from_numpy := fun d _ => Except.ok (d + 200)
  from_dlpack := fun _ _ => Except.error zeroCopyErr
  move_to_device := fun d _ => Except.ok d

/-- A converter whose zero-copy import succeeds but whose device move
raises. -/
def moveFailConverter : Converter Nat where
  to_numpy := fun d _ => Except.ok (d + 100)
  from_numpy := fun d _ => Except.ok (d + 200)
  from_dlpack := fun d _ => Except.ok (d + 10)
  move_to_device := fun _ _ => Except.error zeroCopyErr

/-- A converter whose zero-copy import raises a `KeyboardInterrupt`. -/
def baseFailConverter : Converter Nat where
  to_numpy := fun d _ => Except.ok (d + 100)
  from_numpy := fun d _ => Except.ok (d + 200)
  from_dlpack := fun _ _ => Except.error keyboardInterrupt
  move_to_device := fun d _ => Except.ok d

/-- A converter whose common-format import raises, failing Tier 2. -/
def tier2FailConverter : Converter Nat where
  to_numpy := fun d _ => Except.ok (d + 100)
  from_numpy := fun _ _ => Except.error valueErr
  from_dlpack := fun d _ => Except.ok (d + 10)
  move_to_device := fun d _ => Except.ok d

/-- Environment where every converter succeeds; even values report DLPack
support, odd values do not. -/
def envOk : Env Nat := ⟨fun _ => okConverter, fun d => d % 2 == 0⟩

/-- Environment whose converters fail the zero-copy import. -/
def envDlFail : Env Nat := ⟨fun _ => dlFailConverter, fun d => d % 2 == 0⟩

/-- Environment whose converters fail the post-import device move. -/
def envMoveFail : Env Nat := ⟨fun _ => moveFailConverter, fun d => d % 2 == 0⟩

/-- Environment whose converters raise a `KeyboardInterrupt` in Tier 1. -/
def envBaseFail : Env Nat := ⟨fun _ => baseFailConverter, fun d => d % 2 == 0⟩

/-- Environment with no DLPack support whose Tier 2 import fails. -/
def envTier2Fail : Env Nat := ⟨fun _ => tier2FailConverter, fun _ => false⟩

/-- A detector that classifies every value as the numpy framework. -/
def detectNumpy : Nat → Except PyError MemoryType := fun _ => .ok .numpy

/-- An attribute table holding every method the validator requires. -/
def fullAttrTable : List String := required_methods ++ generated_method_names

/-! ### Helper lemmas -/

/-- The registry lookup always finds the converter the comprehension stored. -/
theorem lookup_ok (env : Env V) (tgt : MemoryType) :
    lookupConverter env tgt = .ok (env.get_converter tgt) := by
  cases tgt <;> rfl

/-- Every framework identifier appears in the iteration order. -/
theorem mem_all (mem_type : MemoryType) : mem_type ∈ MemoryType.all := by
  cases mem_type <;> decide

/-- Generation appends exactly one `to_<value>` name per framework. -/
theorem add_converter_methods_eq (classAttrs : List String) :
    add_converter_methods classAttrs = classAttrs ++ generated_method_names := by
  simp [add_converter_methods, generated_method_names, MemoryType.all, List.foldl]

/-- Every generated name is among the generated names list. -/
theorem mem_generated (tgt : MemoryType) :
    ("to_" ++ tgt.value) ∈ generated_method_names := by
  cases tgt <;> decide

/-- Success of one check loop means every listed name is present. -/
theorem check_methods_ok_iff (mem_type : MemoryType) (conv : List String)
    (names : List String) :
    check_methods mem_type conv names = .ok () ↔ ∀ m ∈ names, hasattr conv m = true := by
  induction names with
  | nil => simp [check_methods]
  | cons m rest ih =>
    by_cases h : hasattr conv m = true
    · simp [check_methods, h, ih]
    · constructor
      · intro hc
        simp [check_methods, h] at hc
      · intro hall
        exact absurd (hall m (by simp)) h

/-- A failing check loop raises precisely a `RuntimeError`. -/
theorem check_methods_error (mem_type : MemoryType) (conv : List String)
    (names : List String) (e : PyError) :
    check_methods mem_type conv names = .error e → e = .exc "RuntimeError" true := by
  induction names with
  | nil => simp [check_methods]
  | cons m rest ih =>
    by_cases h : hasattr conv m = true
    · simpa [check_methods, h] using ih
    · simp [check_methods, h]
      intro he
      exact he.symm

/-- Per-converter validation succeeds exactly when the four primitives and
every generated method are present. -/
theorem validate_one_ok_iff (mem_type : MemoryType) (conv : List String) :
    validate_one mem_type conv = .ok () ↔
      ∀ m ∈ required_methods ++ generated_method_names, hasattr conv m = true := by
  unfold validate_one
  cases hc : check_methods mem_type conv required_methods with
  | error e =>
    simp only [List.mem_append]
    constructor
    · intro h
      exact absurd h (by simp)
    · intro h
      have : check_methods mem_type conv required_methods = .ok () :=
        (check_methods_ok_iff mem_type conv required_methods).mpr
          (fun m hm => h m (Or.inl hm))
      rw [this] at hc
      exact absurd hc (by simp)
  | ok u =>
    cases u
    rw [check_methods_ok_iff]
    have h1 := (check_methods_ok_iff mem_type conv required_methods).mp hc
    constructor
    · intro h m hm
      rcases List.mem_append.mp hm with hm | hm
      · exact h1 m hm
      · exact h m hm
    · intro h m hm
      exact h m (List.mem_append.mpr (Or.inr hm))

/-- A failing per-converter validation raises precisely a `RuntimeError`. -/
theorem validate_one_error (mem_type : MemoryType) (conv : List String) (e : PyError) :
    validate_one mem_type conv = .error e → e = .exc "RuntimeError" true := by
  unfold validate_one
  cases hc : check_methods mem_type conv required_methods with
  | error e2 =>
    intro h
    cases h
    exact check_methods_error mem_type conv required_methods _ hc
  | ok u =>
    exact check_methods_error mem_type conv generated_method_names e

/-- The validation loop succeeds exactly when every listed converter passes. -/
theorem validate_loop_ok_iff (tables : MemoryType → List String)
    (l : List MemoryType) :
    validate_loop tables l = .ok () ↔
      ∀ mem_type ∈ l, validate_one mem_type (tables mem_type) = .ok () := by
  induction l with
  | nil => simp [validate_loop]
  | cons mt rest ih =>
    cases hv : validate_one mt (tables mt) with
    | error e =>
      simp only [validate_loop, hv]
      constructor
      · intro h
        exact absurd h (by simp)
      · intro h
        rw [h mt (by simp)] at hv
        exact absurd hv (by simp)
    | ok u =>
      cases u
      simp only [validate_loop, hv, ih]
      constructor
      · intro h mem_type hm
        rcases List.mem_cons.mp hm with rfl | hm
        · exact hv
        · exact h mem_type hm
      · intro h mem_type hm
        exact h mem_type (List.mem_cons_of_mem _ hm)

/-- A failing validation loop raises precisely a `RuntimeError`. -/
theorem validate_loop_error (tables : MemoryType → List String)
    (l : List MemoryType) (e : PyError) :
    validate_loop tables l = .error e → e = .exc "RuntimeError" true := by
  induction l with
  | nil => simp [validate_loop]
  | cons mt rest ih =>
    cases hv : validate_one mt (tables mt) with
    | error e2 =>
      simp only [validate_loop, hv]
      intro h
      cases h
      exact validate_one_error mt (tables mt) _ hv
    | ok u =>
      cases u
      simpa [validate_loop, hv] using ih

/-- When the probe reports no DLPack support, the method is the Tier 2 run. -/
theorem methodRun_of_not_dlpack (env : Env V) (self : Converter V) (tgt : MemoryType)
    (data : V) (gpu_id : Int) (hsup : env.supports_dlpack data = false) :
    methodRun env self tgt data gpu_id = tier2RunOut env self tgt data gpu_id := by
  simp [methodRun, hsup]

/-- When Tier 1 succeeds, the method returns its value and only its calls. -/
theorem methodRun_of_tier1_ok (env : Env V) (self : Converter V) (tgt : MemoryType)
    (data : V) (gpu_id : Int) (v : V) (calls : List PrimCall)
    (hsup : env.supports_dlpack data = true)
    (h1 : tier1Run env tgt data gpu_id = (.ok v, calls)) :
    methodRun env self tgt data gpu_id = ⟨.ok v, calls, false⟩ := by
  simp [methodRun, hsup, h1]

/-- When Tier 1 raises an `Exception`, the method warns and runs Tier 2. -/
theorem methodRun_of_tier1_exc (env : Env V) (self : Converter V) (tgt : MemoryType)
    (data : V) (gpu_id : Int) (e : PyError) (calls : List PrimCall)
    (hsup : env.supports_dlpack data = true)
    (h1 : tier1Run env tgt data gpu_id = (.error e, calls))
    (hexc : e.isExceptionClass = true) :
    methodRun env self tgt data gpu_id =
      ⟨(tier2Run env self tgt data gpu_id).1,
        calls ++ (tier2Run env self tgt data gpu_id).2, true⟩ := by
  simp [methodRun, hsup, h1, hexc]

/-- When Tier 1 raises a bare `BaseException`, the method propagates it. -/
theorem methodRun_of_tier1_base (env : Env V) (self : Converter V) (tgt : MemoryType)
    (data : V) (gpu_id : Int) (e : PyError) (calls : List PrimCall)
    (hsup : env.supports_dlpack data = true)
    (h1 : tier1Run env tgt data gpu_id = (.error e, calls))
    (hexc : e.isExceptionClass = false) :
    methodRun env self tgt data gpu_id = ⟨.error e, calls, false⟩ := by
  simp [methodRun, hsup, h1, hexc]

/-- The Tier 1 trace always records the `from_dlpack` attempt. -/
theorem fromDlpack_mem_tier1 (env : Env V) (tgt : MemoryType) (data : V)
    (gpu_id : Int) : PrimCall.fromDlpack ∈ (tier1Run env tgt data gpu_id).2 := by
  cases hd : (env.get_converter tgt).from_dlpack data gpu_id with
  | error e => simp [tier1Run, lookup_ok, hd]
  | ok r =>
    cases hm : (env.get_converter tgt).move_to_device r gpu_id with
    | error e => simp [tier1Run, lookup_ok, hd, hm]
    | ok v => simp [tier1Run, lookup_ok, hd, hm]

/-- When `from_dlpack` succeeds, Tier 1 records the `move_to_device` call. -/
theorem moveToDevice_mem_tier1 (env : Env V) (tgt : MemoryType) (data : V)
    (gpu_id : Int) (r : V)
    (hd : (env.get_converter tgt).from_dlpack data gpu_id = .ok r) :
    PrimCall.moveToDevice ∈ (tier1Run env tgt data gpu_id).2 := by
  cases hm : (env.get_converter tgt).move_to_device r gpu_id with
  | error e => simp [tier1Run, lookup_ok, hd, hm]
  | ok v => simp [tier1Run, lookup_ok, hd, hm]

/-- Tier 1 never performs the CPU-roundtrip export. -/
theorem toNumpy_not_mem_tier1 (env : Env V) (tgt : MemoryType) (data : V)
    (gpu_id : Int) : PrimCall.toNumpy ∉ (tier1Run env tgt data gpu_id).2 := by
  cases hd : (env.get_converter tgt).from_dlpack data gpu_id with
  | error e => simp [tier1Run, lookup_ok, hd]
  | ok r =>
    cases hm : (env.get_converter tgt).move_to_device r gpu_id with
    | error e => simp [tier1Run, lookup_ok, hd, hm]
    | ok v => simp [tier1Run, lookup_ok, hd, hm]

/-- When Tier 1 produced a value, its `from_dlpack` succeeded. -/
theorem tier1Run_ok_from_dlpack (env : Env V) (tgt : MemoryType) (data : V)
    (gpu_id : Int) (v : V) (h : (tier1Run env tgt data gpu_id).1 = .ok v) :
    ∃ r, (env.get_converter tgt).from_dlpack data gpu_id = .ok r := by
  cases hd : (env.get_converter tgt).from_dlpack data gpu_id with
  | error e => simp [tier1Run, lookup_ok, hd] at h
  | ok r => exact ⟨r, rfl⟩

/-- The Tier 2 trace always records the `to_numpy` export. -/
theorem toNumpy_mem_tier2 (env : Env V) (self : Converter V) (tgt : MemoryType)
    (data : V) (gpu_id : Int) :
    PrimCall.toNumpy ∈ (tier2Run env self tgt data gpu_id).2 := by
  cases hn : self.to_numpy data gpu_id with
  | error e => simp [tier2Run, hn]
  | ok nd =>
    cases hf : (env.get_converter tgt).from_numpy nd gpu_id with
    | error e => simp [tier2Run, lookup_ok, hn, hf]
    | ok v => simp [tier2Run, lookup_ok, hn, hf]

/-- Tier 2 never performs the zero-copy import. -/
theorem fromDlpack_not_mem_tier2 (env : Env V) (self : Converter V) (tgt : MemoryType)
    (data : V) (gpu_id : Int) :
    PrimCall.fromDlpack ∉ (tier2Run env self tgt data gpu_id).2 := by
  cases hn : self.to_numpy data gpu_id with
  | error e => simp [tier2Run, hn]
  | ok nd =>
    cases hf : (env.get_converter tgt).from_numpy nd gpu_id with
    | error e => simp [tier2Run, lookup_ok, hn, hf]
    | ok v => simp [tier2Run, lookup_ok, hn, hf]

/-- The Tier 2 result is exactly `from_numpy` composed after `to_numpy`. -/
theorem tier2Run_fst_eq (env : Env V) (self : Converter V) (tgt : MemoryType)
    (data : V) (gpu_id : Int) :
    (tier2Run env self tgt data gpu_id).1 =
      (self.to_numpy data gpu_id).bind
        (fun numpy_data => (env.get_converter tgt).from_numpy numpy_data gpu_id) := by
  cases hn : self.to_numpy data gpu_id with
  | error e => simp [tier2Run, hn, Except.bind]
  | ok nd =>
    cases hf : (env.get_converter tgt).from_numpy nd gpu_id with
    | error e => simp [tier2Run, lookup_ok, hn, hf, Except.bind]
    | ok v => simp [tier2Run, lookup_ok, hn, hf, Except.bind]

/-- When the probe reports support, every Tier 1 call appears in the method's
trace. -/
theorem tier1_calls_mem_method (env : Env V) (self : Converter V) (tgt : MemoryType)
    (data : V) (gpu_id : Int) (hsup : env.supports_dlpack data = true) :
    ∀ c ∈ (tier1Run env tgt data gpu_id).2,
      c ∈ (methodRun env self tgt data gpu_id).calls := by
  intro c hc
  rcases h1 : tier1Run env tgt data gpu_id with ⟨r, cs⟩
  rw [h1] at hc
  cases r with
  | ok v => rw [methodRun_of_tier1_ok env self tgt data gpu_id v cs hsup h1]; exact hc
  | error e =>
    cases hexc : e.isExceptionClass with
    | true =>
      rw [methodRun_of_tier1_exc env self tgt data gpu_id e cs hsup h1 hexc]
      exact List.mem_append.mpr (Or.inl hc)
    | false =>
      rw [methodRun_of_tier1_base env self tgt data gpu_id e cs hsup h1 hexc]
      exact hc

/-! ### Claim theorems -/

/-- C4: the startup validation `_validate_converters` completes without
raising exactly when every registered converter has all four primitive
operations and every generated `to_<target>` method; any failure it raises
is a `RuntimeError`-class exception at module initialization. -/
theorem validation_fails_iff_missing (tables : MemoryType → List String) :
    (validate_converters tables = Except.ok () ↔
      ∀ mem_type : MemoryType,
        ∀ m ∈ required_methods ++ generated_method_names,
          hasattr (tables mem_type) m = true)
    ∧ (∀ e, validate_converters tables = Except.error e →
        e.className = "RuntimeError" ∧ e.isExceptionClass = true) := by
  constructor
  · rw [validate_converters, validate_loop_ok_iff]
    constructor
    · intro h mem_type
      exact (validate_one_ok_iff mem_type (tables mem_type)).mp
        (h mem_type (mem_all mem_type))
    · intro h mem_type _
      exact (validate_one_ok_iff mem_type (tables mem_type)).mpr (h mem_type)
  · intro e he
    have hre := validate_loop_error tables MemoryType.all e he
    rw [hre]
    exact ⟨rfl, rfl⟩

/-- C4 witness: a complete attribute table validates without raising. -/
theorem validation_fails_iff_missing_witness :
    validate_converters (fun _ => fullAttrTable) = Except.ok () :=
  (validation_fails_iff_missing (fun _ => fullAttrTable)).1.mpr (by decide)

/-- C7: after the generation step, every converter instance exposes a
`to_<target>` method for every registered target framework — the conversion
matrix is complete over the closed framework set. -/
theorem conversion_matrix_complete (own base : MemoryType → List String)
    (src tgt : MemoryType) :
    hasattr (instanceAttrs (own src) (add_converter_methods (base src)))
      ("to_" ++ tgt.value) = true := by
  have h := mem_generated tgt
  simp only [hasattr, instanceAttrs, add_converter_methods_eq, decide_eq_true_eq,
    List.mem_append]
  tauto

/-- C10: the `_CONVERTERS` registry holds exactly one entry per member of
the framework enumeration, and the `_CONVERTERS[tgt]` lookup inside a
generated method always succeeds with the registered converter. -/
theorem registry_complete_lookup_total (env : Env V) :
    ((CONVERTERS env).map Prod.fst = MemoryType.all
      ∧ ((CONVERTERS env).map Prod.fst).Nodup)
    ∧ ∀ tgt : MemoryType, lookupConverter env tgt = Except.ok (env.get_converter tgt) := by
  refine ⟨⟨rfl, ?_⟩, fun tgt => lookup_ok env tgt⟩
  have h : (CONVERTERS env).map Prod.fst = MemoryType.all := rfl
  rw [h]
  decide

/-- C1: a generated `to_<target>` method attempts the Tier 1 zero-copy path
(the target converter's `from_dlpack`, followed by its `move_to_device` when
the import succeeds) exactly when the capability probe reports the source
value supports zero-copy export; when the probe reports no support, the
method performs only the Tier 2 common-format roundtrip. -/
theorem tier1_attempted_iff_probe_reports (env : Env V) (self : Converter V)
    (tgt : MemoryType) (data : V) (gpu_id : Int) :
    (PrimCall.fromDlpack ∈ (methodRun env self tgt data gpu_id).calls ↔
      env.supports_dlpack data = true)
    ∧ (env.supports_dlpack data = false →
        methodRun env self tgt data gpu_id = tier2RunOut env self tgt data gpu_id)
    ∧ (∀ r : V, env.supports_dlpack data = true →
        (env.get_converter tgt).from_dlpack data gpu_id = Except.ok r →
        PrimCall.moveToDevice ∈ (methodRun env self tgt data gpu_id).calls) := by
  cases hsup : env.supports_dlpack data with
  | false =>
    refine ⟨?_, fun _ => methodRun_of_not_dlpack env self tgt data gpu_id hsup, ?_⟩
    · rw [methodRun_of_not_dlpack env self tgt data gpu_id hsup]
      simp only [tier2RunOut]
      constructor
      · intro h
        exact absurd h (fromDlpack_not_mem_tier2 env self tgt data gpu_id)
      · intro h
        exact absurd h (by simp)
    · intro r hs
      exact absurd hs (by simp)
  | true =>
    refine ⟨?_, ?_, ?_⟩
    · constructor
      · intro _
        rfl
      · intro _
        exact tier1_calls_mem_method env self tgt data gpu_id hsup
          PrimCall.fromDlpack (fromDlpack_mem_tier1 env tgt data gpu_id)
    · intro h
      exact absurd h (by simp)
    · intro r _ hdl
      exact tier1_calls_mem_method env self tgt data gpu_id hsup
        PrimCall.moveToDevice (moveToDevice_mem_tier1 env tgt data gpu_id r hdl)

/-- C1 witness: at a concrete input without zero-copy support the method is
exactly the Tier 2 roundtrip run. -/
theorem tier1_attempted_iff_probe_reports_witness :
    methodRun envOk okConverter MemoryType.torch 3 0 =
      tier2RunOut envOk okConverter MemoryType.torch 3 0 :=
  (tier1_attempted_iff_probe_reports envOk okConverter MemoryType.torch 3 0).2.1
    (by decide)

/-- C2: an `Exception`-class error raised during the Tier 1 zero-copy
attempt is caught and the warning logged; it never propagates, and the
method returns exactly the Tier 2 roundtrip result on the original input. -/
theorem tier1_exception_swallowed (env : Env V) (self : Converter V)
    (tgt : MemoryType) (data : V) (gpu_id : Int) (e : PyError)
    (hsup : env.supports_dlpack data = true)
    (h1 : (tier1Run env tgt data gpu_id).1 = Except.error e)
    (hexc : e.isExceptionClass = true) :
    method env self tgt data gpu_id = (tier2Run env self tgt data gpu_id).1
    ∧ (methodRun env self tgt data gpu_id).warned = true := by
  rcases hp : tier1Run env tgt data gpu_id with ⟨r, cs⟩
  rw [hp] at h1
  simp only at h1
  rw [h1] at hp
  rw [method, methodRun_of_tier1_exc env self tgt data gpu_id e cs hsup hp hexc]
  exact ⟨rfl, rfl⟩

/-- C2 witness: a forced `ZeroCopyUnsupportedError` in Tier 1 is swallowed,
the warning is logged and the Tier 2 result is returned. -/
theorem tier1_exception_swallowed_witness :
    method envDlFail dlFailConverter MemoryType.cupy 2 0 =
      (tier2Run envDlFail dlFailConverter MemoryType.cupy 2 0).1
    ∧ (methodRun envDlFail dlFailConverter MemoryType.cupy 2 0).warned = true :=
  tier1_exception_swallowed envDlFail dlFailConverter MemoryType.cupy 2 0
    zeroCopyErr (by rfl) (by rfl) (by rfl)

/-- C3: the Tier 2 path is exactly
`target_converter.from_numpy(self.to_numpy(data, gpu_id), gpu_id)`, and a
failure raised in Tier 2 leaves the dispatcher wrapped as a
`MemoryConversionError` carrying the underlying cause, with no further
fallback. -/
theorem tier2_composition_and_wrapping (env : Env V)
    (detect : V → Except PyError MemoryType) (self : Converter V)
    (src tgt : MemoryType) (value : V) (gpu_id : Int) (e : PyError) :
    ((tier2Run env self tgt value gpu_id).1 =
      (self.to_numpy value gpu_id).bind
        (fun numpy_data => (env.get_converter tgt).from_numpy numpy_data gpu_id))
    ∧ (detect value = Except.ok src → src ≠ tgt →
        env.supports_dlpack value = false →
        (tier2Run env (env.get_converter src) tgt value gpu_id).1 = Except.error e →
        convert env detect value tgt gpu_id =
          Except.error (PyError.memoryConversionError e)) := by
  refine ⟨tier2Run_fst_eq env self tgt value gpu_id, ?_⟩
  intro hdet hne hsup h2
  have hm := methodRun_of_not_dlpack env (env.get_converter src) tgt value gpu_id hsup
  rw [convert, convertRun, hdet]
  simp only [hne, if_false, lookup_ok, hm, tier2RunOut, h2]

/-- C3 witness: a concrete Tier 2 failure surfaces from the dispatcher as a
`MemoryConversionError` wrapping the `ValueError` cause. -/
theorem tier2_composition_and_wrapping_witness :
    convert envTier2Fail detectNumpy 5 MemoryType.torch 0 =
      Except.error (PyError.memoryConversionError valueErr) :=
  (tier2_composition_and_wrapping envTier2Fail detectNumpy
      (envTier2Fail.get_converter MemoryType.numpy) MemoryType.numpy
      MemoryType.torch 5 0 valueErr).2
    (by rfl) (by decide) (by rfl) (by rfl)

/-- C5: when the detected source framework equals the requested target, the
dispatcher returns the result of `move_to_device` with the default device
hint — a value equal to the input — without performing either conversion
tier, and does not raise. -/
theorem convert_same_framework_noop (env : Env V)
    (detect : V → Except PyError MemoryType) (value : V) (src : MemoryType)
    (device_hint : Int)
    (hdet : detect value = Except.ok src)
    (hmove : (env.get_converter src).move_to_device value device_hint =
      Except.ok value) :
    convertRun env detect value src device_hint =
      (Except.ok value, [PrimCall.moveToDevice]) := by
  rw [convertRun, hdet]
  simp only [if_pos rfl, if_true, lookup_ok, hmove]

/-- C5 witness: converting a value already in its own framework returns it
unchanged via the device-move primitive alone. -/
theorem convert_same_framework_noop_witness :
    convertRun envOk detectNumpy 7 MemoryType.numpy 0 =
      (Except.ok 7, [PrimCall.moveToDevice]) :=
  convert_same_framework_noop envOk detectNumpy 7 MemoryType.numpy 0
    (by rfl) (by rfl)

/-- C6: the Tier 2 roundtrip serves the conversion whenever either side
lacks the zero-copy capability — the probe reports no export support, or the
target converter's zero-copy import raises — and a result served without the
roundtrip requires both the probe's support and a successful target-side
zero-copy capsule intake. -/
theorem tier2_when_either_side_lacks (env : Env V) (self : Converter V)
    (tgt : MemoryType) (data : V) (gpu_id : Int) :
    (env.supports_dlpack data = false →
      method env self tgt data gpu_id = (tier2Run env self tgt data gpu_id).1)
    ∧ (∀ e : PyError,
        (env.get_converter tgt).from_dlpack data gpu_id = Except.error e →
        e.isExceptionClass = true →
        method env self tgt data gpu_id = (tier2Run env self tgt data gpu_id).1)
    ∧ (∀ v : V, (methodRun env self tgt data gpu_id).result = Except.ok v →
        PrimCall.toNumpy ∉ (methodRun env self tgt data gpu_id).calls →
        env.supports_dlpack data = true ∧
          ∃ r, (env.get_converter tgt).from_dlpack data gpu_id = Except.ok r) := by
  refine ⟨?_, ?_, ?_⟩
  · intro hsup
    rw [method, methodRun_of_not_dlpack env self tgt data gpu_id hsup]
    rfl
  · intro e hd hexc
    cases hsup : env.supports_dlpack data with
    | false =>
      rw [method, methodRun_of_not_dlpack env self tgt data gpu_id hsup]
      rfl
    | true =>
      have h1 : tier1Run env tgt data gpu_id = (.error e, [.fromDlpack]) := by
        simp [tier1Run, lookup_ok, hd]
      rw [method,
        methodRun_of_tier1_exc env self tgt data gpu_id e _ hsup h1 hexc]
  · intro v hok hnom
    cases hsup : env.supports_dlpack data with
    | false =>
      rw [methodRun_of_not_dlpack env self tgt data gpu_id hsup] at hnom
      exact absurd (toNumpy_mem_tier2 env self tgt data gpu_id) hnom
    | true =>
      refine ⟨rfl, ?_⟩
      rcases hp : tier1Run env tgt data gpu_id with ⟨r, cs⟩
      cases r with
      | ok w =>
        exact tier1Run_ok_from_dlpack env tgt data gpu_id w (by rw [hp])
      | error e =>
        cases hexc : e.isExceptionClass with
        | true =>
          rw [methodRun_of_tier1_exc env self tgt data gpu_id e cs hsup hp hexc]
            at hnom
          exact absurd
            (List.mem_append.mpr (Or.inr (toNumpy_mem_tier2 env self tgt data gpu_id)))
            hnom
        | false =>
          rw [methodRun_of_tier1_base env self tgt data gpu_id e cs hsup hp hexc]
            at hok
          exact absurd hok (by simp)

/-- C6 witness: a target whose zero-copy import raises forces the Tier 2
roundtrip result. -/
theorem tier2_when_either_side_lacks_witness :
    method envDlFail dlFailConverter MemoryType.jax 4 0 =
      (tier2Run envDlFail dlFailConverter MemoryType.jax 4 0).1 :=
  (tier2_when_either_side_lacks envDlFail dlFailConverter MemoryType.jax 4 0).2.1
    zeroCopyErr (by rfl) (by rfl)

/-- C8: the Tier 1 catch scope is exactly the `Exception` class: an error
that is not `Exception`-class (such as `KeyboardInterrupt`) raised during
the zero-copy attempt propagates out of the generated method, with no
warning logged and no Tier 2 fallback performed. -/
theorem tier1_base_exception_propagates (env : Env V) (self : Converter V)
    (tgt : MemoryType) (data : V) (gpu_id : Int) (e : PyError)
    (hsup : env.supports_dlpack data = true)
    (h1 : (tier1Run env tgt data gpu_id).1 = Except.error e)
    (hbase : e.isExceptionClass = false) :
    method env self tgt data gpu_id = Except.error e
    ∧ (methodRun env self tgt data gpu_id).warned = false
    ∧ PrimCall.toNumpy ∉ (methodRun env self tgt data gpu_id).calls := by
  rcases hp : tier1Run env tgt data gpu_id with ⟨r, cs⟩
  rw [hp] at h1
  simp only at h1
  rw [h1] at hp
  rw [method, methodRun_of_tier1_base env self tgt data gpu_id e cs hsup hp hbase]
  refine ⟨rfl, rfl, ?_⟩
  have hcs : cs = (tier1Run env tgt data gpu_id).2 := by rw [hp]
  rw [hcs]
  exact toNumpy_not_mem_tier1 env tgt data gpu_id

/-- C8 witness: a `KeyboardInterrupt` raised by the zero-copy import
propagates to the caller without warning or fallback. -/
theorem tier1_base_exception_propagates_witness :
    method envBaseFail baseFailConverter MemoryType.torch 2 0 =
      Except.error keyboardInterrupt
    ∧ (methodRun envBaseFail baseFailConverter MemoryType.torch 2 0).warned = false
    ∧ PrimCall.toNumpy ∉
        (methodRun envBaseFail baseFailConverter MemoryType.torch 2 0).calls :=
  tier1_base_exception_propagates envBaseFail baseFailConverter MemoryType.torch 2 0
    keyboardInterrupt (by rfl) (by rfl) (by rfl)

/-- C9: when the target's `from_dlpack` succeeds but the subsequent
`move_to_device` raises an `Exception`, the partially converted value is
discarded and Tier 2 reruns the roundtrip from the original, unmodified
input value. -/
theorem tier1_partial_failure_reruns_tier2 (env : Env V) (self : Converter V)
    (tgt : MemoryType) (data : V) (gpu_id : Int) (r : V) (e : PyError)
    (hsup : env.supports_dlpack data = true)
    (hdl : (env.get_converter tgt).from_dlpack data gpu_id = Except.ok r)
    (hmv : (env.get_converter tgt).move_to_device r gpu_id = Except.error e)
    (hexc : e.isExceptionClass = true) :
    method env self tgt data gpu_id =
      (self.to_numpy data gpu_id).bind
        (fun numpy_data => (env.get_converter tgt).from_numpy numpy_data gpu_id) := by
  have h1 : tier1Run env tgt data gpu_id =
      (.error e, [.fromDlpack, .moveToDevice]) := by
    simp [tier1Run, lookup_ok, hdl, hmv]
  rw [method, methodRun_of_tier1_exc env self tgt data gpu_id e _ hsup h1 hexc]
  exact tier2Run_fst_eq env self tgt data gpu_id

/-- C9 witness: a failing device move after a successful zero-copy import
yields the roundtrip of the original input. -/
theorem tier1_partial_failure_reruns_tier2_witness :
    method envMoveFail moveFailConverter MemoryType.cupy 2 0 =
      (moveFailConverter.to_numpy 2 0).bind
        (fun numpy_data =>
          (envMoveFail.get_converter MemoryType.cupy).from_numpy numpy_data 0) :=
  tier1_partial_failure_reruns_tier2 envMoveFail moveFailConverter MemoryType.cupy
    2 0 12 zeroCopyErr (by rfl) (by rfl) (by rfl) (by rfl)

end ArrayBridge
